import Mathlib

/-!
Verification of the hermes pubsub trace adapter (`host/flush_tracer.go`):
the event taxonomy, the trace envelope, the lifecycle and wire callback
surfaces, and the bounded-timeout delivery pipeline.

Modelling conventions:
* `peer.ID` and `protocol.ID` are modelled as `String`
  (`peer.ID.String()` is then the identity function).
* Go byte strings (`msg.ID`, `msg.GetSeqno()`, protobuf `messageID`) are
  `List Nat`, each entry taken modulo 256 where a byte is produced.
* `time.Time` is an `Int` of nanoseconds since the epoch, so that
  `time.Unix(0, ns)` is the identity and `time.Now()` is an explicit
  parameter `now`.
* The external stream client (`h.cfg.DataStream.PutEvent`) is a parameter:
  a `SinkBehavior` describing whether and when the sink answers.
-/

/-- `peer.ID`, rendered form. -/
abbrev PeerID := String

/-- `protocol.ID`. -/
abbrev ProtocolID := String

/-- The closed enumeration of event kinds the adapter can emit
(`EventTypeAddPeer`, ..., `EventTypeDropRPC` in the source). -/
inductive EventType
  | addPeer | removePeer | join | leave | graft | prune
  | validateMessage | deliverMessage | rejectMessage | duplicateMessage
  | throttlePeer | undeliverableMessage
  | publishMessage | recvRPC | sendRPC | dropRPC
deriving DecidableEq, Repr

/-- A payload value as it sits in the Go `map[string]any`.
`vBytes` is a raw Go byte slice / byte string placed in the map without
hex encoding; `vStr` a Go string; `vUnser` stands for a value that
`json.Marshal` cannot serialize (e.g. a channel or function injected by a
caller). -/
inductive Val
  | vStr (s : String)
  | vBool (b : Bool)
  | vNat (n : Nat)
  | vBytes (bs : List Nat)
  | vUnser
deriving DecidableEq, Repr

/-- Modelled from the spec: the control part of the RPC metadata body
(`newRPCMeta` and its input types are in the repository but not in the
provided source file). Fields follow §3: Graft topics, Prune
(topic, peer list) pairs, IHave/IWant/IDontWant message-id lists. -/
structure RPCControl where
  graft : List String
  prune : List (String × List PeerID)
  ihave : List (List (List Nat))
  iwant : List (List (List Nat))
  idontwant : List (List (List Nat))
deriving DecidableEq, Repr

/-- Modelled from the spec: the raw wire-level metadata body handed to the
normalizer; every part may be absent or empty. -/
structure RPCMetaBody where
  subscriptions : List (String × Bool)
  control : Option RPCControl
  messages : List (String × List Nat)
deriving DecidableEq, Repr

/-- Modelled from the spec: the normalized RPC metadata payload
(counterparty peer, subscriptions, control with empty-safe defaults,
message summaries). -/
structure RPCMeta where
  peerID : PeerID
  subscriptions : List (String × Bool)
  control : RPCControl
  messages : List (String × List Nat)
deriving DecidableEq, Repr

/-- Modelled from the spec: `newRPCMeta` normalizes a counterparty peer
identity and a raw metadata body into an `RPCMeta`; every optional
sub-list defaults to empty rather than being absent. -/
def newRPCMeta (p : PeerID) (body : RPCMetaBody) : RPCMeta :=
  { peerID := p
    subscriptions := body.subscriptions
    control := body.control.getD ⟨[], [], [], [], []⟩
    messages := body.messages }

/-- An envelope payload: either a `map[string]any` literal (lifecycle and
publish events) or an `RPCMeta` structure (RPC wire events). -/
inductive Payload
  | pmap (fields : List (String × Val))
  | prpc (meta : RPCMeta)
deriving DecidableEq, Repr

/-- Keys of a map payload, in source order. -/
def Payload.keys : Payload → List String
  | .pmap fields => fields.map Prod.fst
  | .prpc _ => []

/-- Lookup of a key in a map payload. -/
def Payload.lookup (p : Payload) (k : String) : Option Val :=
  match p with
  | .pmap fields => (fields.find? (fun kv => kv.1 == k)).map Prod.snd
  | .prpc _ => none

/-- `TraceEvent`: the uniform trace envelope
`{Type, PeerID, Timestamp, Payload}` of the source. -/
structure TraceEvent where
  «Type» : EventType
  PeerID : PeerID
  Timestamp : Int
  Payload : Payload
deriving DecidableEq, Repr

/-- `hex.EncodeToString`: per byte, high nibble then low nibble, lowercase
hex digits. -/
def hexDigits : List Char := "0123456789abcdef".toList

/-- One lowercase hex digit for a nibble value. -/
def hexDigit (n : Nat) : Char := hexDigits.getD n 'x'

/-- `hex.EncodeToString` on a byte string, as a character list. -/
def hexEncodeChars (bs : List Nat) : List Char :=
  bs.foldr (fun b acc => hexDigit (b % 256 / 16) :: hexDigit (b % 256 % 16) :: acc) []

/-- `hex.EncodeToString` on a byte string. -/
def hexEncodeToString (bs : List Nat) : String :=
  String.mk (hexEncodeChars bs)

/-- `pubsub.Message` as used by the adapter: `ReceivedFrom`,
`GetTopic()`, the computed message id `ID` (a byte string), `Local`,
`Size()`, `GetSeqno()`. -/
structure PubsubMessage where
  receivedFrom : PeerID
  topic : String
  id : List Nat
  isLocal : Bool
  size : Nat
  seqno : List Nat
deriving DecidableEq, Repr

/-- `pubsub.RPC` — opaque to this adapter: the three callback-surface RPC
methods ignore their argument entirely. -/
structure RPC where
  raw : List Nat
deriving DecidableEq, Repr

/-- `pubsubpb.TraceEvent_Type`: the protobuf trace notification kinds. -/
inductive PBType
  | publishMessage | rejectMessage | duplicateMessage | deliverMessage
  | addPeer | removePeer | recvRPC | sendRPC | dropRPC
  | join | leave | graft | prune
deriving DecidableEq, Repr

/-- `pubsubpb.TraceEvent_PublishMessage`: raw message id bytes and topic. -/
structure PBPublish where
  messageID : List Nat
  topic : String
deriving DecidableEq, Repr

/-- `pubsubpb.TraceEvent_RecvRPC`. -/
structure PBRecvRPC where
  receivedFrom : PeerID
  meta : RPCMetaBody
deriving DecidableEq, Repr

/-- `pubsubpb.TraceEvent_SendRPC` (also the shape of `DropRPC`). -/
structure PBSendRPC where
  sendTo : PeerID
  meta : RPCMetaBody
deriving DecidableEq, Repr

/-- `pubsubpb.TraceEvent`: kind, nanosecond timestamp (already dereferenced
by the protobuf getter), and the kind-specific bodies reachable through the
getters used in `Host.Trace`. -/
structure PBTraceEvent where
  type : PBType
  timestamp : Int
  publish : PBPublish
  recvRPC : PBRecvRPC
  sendRPC : PBSendRPC
  dropRPC : PBSendRPC
deriving DecidableEq, Repr

/-- The `Host`, reduced to what `flush_tracer.go` reads from it: its own
peer identity `h.ID()`. -/
structure Host where
  ID : PeerID
deriving DecidableEq

/-- One invocation of one of the adapter's entry points: the twelve
lifecycle callbacks, the three no-op RPC callbacks, and the wire-trace
entry point `Trace`. -/
inductive CallbackCall
  | addPeer (p : PeerID) (proto : ProtocolID)
  | removePeer (p : PeerID)
  | join (topic : String)
  | leave (topic : String)
  | graft (p : PeerID) (topic : String)
  | prune (p : PeerID) (topic : String)
  | validateMessage (msg : PubsubMessage)
  | deliverMessage (msg : PubsubMessage)
  | rejectMessage (msg : PubsubMessage) (reason : String)
  | duplicateMessage (msg : PubsubMessage)
  | throttlePeer (p : PeerID)
  | undeliverableMessage (msg : PubsubMessage)
  | recvRPC (rpc : RPC)
  | sendRPC (rpc : RPC) (p : PeerID)
  | dropRPC (rpc : RPC) (p : PeerID)
  | trace (evt : PBTraceEvent)
deriving DecidableEq, Repr

/-- The envelope built by `FlushTraceWithTimestamp` (lines 55-61):
`{Type: evtType, PeerID: h.ID(), Timestamp: timestamp, Payload: payload}`. -/
def mkTraceEvent (h : Host) (evtType : EventType) (timestamp : Int)
    (payload : Payload) : TraceEvent :=
  { «Type» := evtType, PeerID := h.ID, Timestamp := timestamp, Payload := payload }

/-- The envelopes an entry-point invocation hands to the delivery pipeline:
each lifecycle callback builds exactly one envelope via `FlushTrace`
(timestamp `now`); `RecvRPC`/`SendRPC`/`DropRPC` are no-ops; `Trace`
dispatches on the notification kind via `FlushTraceWithTimestamp`
(timestamp from the notification), ignoring unhandled kinds. -/
def emittedEvents (h : Host) (now : Int) : CallbackCall → List TraceEvent
  | .addPeer p proto =>
      [mkTraceEvent h .addPeer now (.pmap
        [("PeerID", .vStr p), ("Protocol", .vStr proto)])]
  | .removePeer p =>
      [mkTraceEvent h .removePeer now (.pmap [("PeerID", .vStr p)])]
  | .join topic =>
      [mkTraceEvent h .join now (.pmap [("Topic", .vStr topic)])]
  | .leave topic =>
      [mkTraceEvent h .leave now (.pmap [("Topic", .vStr topic)])]
  | .graft p topic =>
      [mkTraceEvent h .graft now (.pmap
        [("PeerID", .vStr p), ("Topic", .vStr topic)])]
  | .prune p topic =>
      [mkTraceEvent h .prune now (.pmap
        [("PeerID", .vStr p), ("Topic", .vStr topic)])]
  | .validateMessage msg =>
      [mkTraceEvent h .validateMessage now (.pmap
        [("PeerID", .vStr msg.receivedFrom),
         ("Topic", .vStr msg.topic),
         ("MsgID", .vStr (hexEncodeToString msg.id)),
         ("Local", .vBool msg.isLocal),
         ("MsgSize", .vNat msg.size),
         ("SeqNo", .vStr (hexEncodeToString msg.seqno))])]
  | .deliverMessage msg =>
      [mkTraceEvent h .deliverMessage now (.pmap
        [("PeerID", .vStr msg.receivedFrom),
         ("Topic", .vStr msg.topic),
         ("MsgID", .vStr (hexEncodeToString msg.id)),
         ("Local", .vBool msg.isLocal),
         ("MsgSize", .vNat msg.size),
         ("Seq", .vStr (hexEncodeToString msg.seqno))])]
  | .rejectMessage msg reason =>
      [mkTraceEvent h .rejectMessage now (.pmap
        [("PeerID", .vStr msg.receivedFrom),
         ("Topic", .vStr msg.topic),
         ("MsgID", .vStr (hexEncodeToString msg.id)),
         ("Reason", .vStr reason),
         ("Local", .vBool msg.isLocal),
         ("MsgSize", .vNat msg.size),
         ("Seq", .vStr (hexEncodeToString msg.seqno))])]
  | .duplicateMessage msg =>
      [mkTraceEvent h .duplicateMessage now (.pmap
        [("PeerID", .vStr msg.receivedFrom),
         ("Topic", .vStr msg.topic),
         ("MsgID", .vStr (hexEncodeToString msg.id)),
         ("Local", .vBool msg.isLocal),
         ("MsgSize", .vNat msg.size),
         ("Seq", .vStr (hexEncodeToString msg.seqno))])]
  | .throttlePeer p =>
      [mkTraceEvent h .throttlePeer now (.pmap [("PeerID", .vStr p)])]
  | .undeliverableMessage msg =>
      [mkTraceEvent h .undeliverableMessage now (.pmap
        [("PeerID", .vStr msg.receivedFrom),
         ("Topic", .vStr msg.topic),
         ("MsgID", .vStr (hexEncodeToString msg.id)),
         ("Local", .vBool msg.isLocal)])]
  | .recvRPC _ => []
  | .sendRPC _ _ => []
  | .dropRPC _ _ => []
  | .trace evt =>
      match evt.type with
      | .publishMessage =>
          [mkTraceEvent h .publishMessage evt.timestamp (.pmap
            [("MsgID", .vBytes evt.publish.messageID),
             ("Topic", .vStr evt.publish.topic)])]
      | .recvRPC =>
          [mkTraceEvent h .recvRPC evt.timestamp
            (.prpc (newRPCMeta evt.recvRPC.receivedFrom evt.recvRPC.meta))]
      | .sendRPC =>
          [mkTraceEvent h .sendRPC evt.timestamp
            (.prpc (newRPCMeta evt.sendRPC.sendTo evt.sendRPC.meta))]
      | .dropRPC =>
          [mkTraceEvent h .dropRPC evt.timestamp
            (.prpc (newRPCMeta evt.dropRPC.sendTo evt.dropRPC.meta))]
      | _ => []

/-- `TraceEvent.PartitionKey` (lines 26-32): a fresh UUID when UUID
generation succeeds, else the envelope's `PeerID.String()`. The UUID
generator is external state, passed in as `uuidRes` (`none` = the
`uuid.NewUUID()` call returned an error). -/
def TraceEvent.PartitionKey (t : TraceEvent) (uuidRes : Option String) : String :=
  match uuidRes with
  | some u => u
  | none => t.PeerID

/-- `TraceEvent.ExplicitHashKey` (lines 34-36): always nil. -/
def TraceEvent.ExplicitHashKey (_t : TraceEvent) : Option String := none

/-- The configured delivery timeout: `10*time.Second` in nanoseconds. -/
def timeoutNs : Nat := 10000000000

/-- Behavior of the external stream client for one `PutEvent` call: it
either answers after `afterNs` nanoseconds with `none` (success) or
`some msg` (explicit failure), or it never answers. A client honoring the
context deadline surfaces a timeout error once the 10-second context
expires. -/
inductive SinkBehavior
  | respond (afterNs : Nat) (result : Option String)
  | noResponse
deriving DecidableEq, Repr

/-- Outcome of `h.cfg.DataStream.PutEvent(ctx, evt)` under the 10-second
context: nanoseconds the caller was blocked, and the error returned
(`none` = success). A response slower than the deadline, or no response,
becomes a context-deadline error at the deadline. -/
def putEventOutcome : SinkBehavior → Nat × Option String
  | .respond afterNs result =>
      if afterNs < timeoutNs then (afterNs, result)
      else (timeoutNs, some "context deadline exceeded")
  | .noResponse => (timeoutNs, some "context deadline exceeded")

/-- Mutable state the pipeline touches: the monotonic
`meterSubmittedTraces` counter and the number of warnings logged. -/
structure HostState where
  submittedTraces : Nat
  warnings : Nat
deriving DecidableEq, Repr

/-- Observable steps of one `FlushTraceWithTimestamp` body, in order:
acquire the scoped timeout context, call `PutEvent`, log a warning /
increment the counter, release the context (`defer cancel()`). -/
inductive FlushStep
  | ctxAcquire | putCall | logWarn | counterInc | ctxRelease
deriving DecidableEq, Repr

/-- Result of one delivery attempt: the updated mutable state, how long
the caller was blocked, the ordered list of observable steps taken, and
the error surfaced to the caller (the Go function has no error return and
recovers nothing, so this is `none` on every path of the source). -/
structure FlushResult where
  state : HostState
  blockedNs : Nat
  actions : List FlushStep
  raisedErr : Option String
deriving DecidableEq, Repr

/-- Lines 63-72 of `FlushTraceWithTimestamp`: create the 10-second scoped
context, call `PutEvent`; on error log a warning and return, on success
increment the submitted-traces counter; `defer cancel()` releases the
context on both exits. -/
def deliverEvent (sink : SinkBehavior) (st : HostState) (_evt : TraceEvent) :
    FlushResult :=
  let outcome := putEventOutcome sink
  match outcome.2 with
  | some _ =>
      { state := { st with warnings := st.warnings + 1 }
        blockedNs := outcome.1
        actions := [.ctxAcquire, .putCall, .logWarn, .ctxRelease]
        raisedErr := none }
  | none =>
      { state := { st with submittedTraces := st.submittedTraces + 1 }
        blockedNs := outcome.1
        actions := [.ctxAcquire, .putCall, .counterInc, .ctxRelease]
        raisedErr := none }

/-- `Host.FlushTraceWithTimestamp`: build the envelope, then deliver it. -/
def FlushTraceWithTimestamp (h : Host) (sink : SinkBehavior) (st : HostState)
    (evtType : EventType) (timestamp : Int) (payload : Payload) :
    TraceEvent × FlushResult :=
  let evt := mkTraceEvent h evtType timestamp payload
  (evt, deliverEvent sink st evt)

/-- `Host.FlushTrace`: `FlushTraceWithTimestamp` at `time.Now()`
(the explicit `now` parameter). -/
def FlushTrace (h : Host) (sink : SinkBehavior) (st : HostState)
    (evtType : EventType) (now : Int) (payload : Payload) :
    TraceEvent × FlushResult :=
  FlushTraceWithTimestamp h sink st evtType now payload

/-- Run one entry-point invocation end to end: every envelope the call
builds is delivered in order, threading the mutable state; the observable
steps accumulate. -/
def runCallback (h : Host) (now : Int) (sink : SinkBehavior) (st : HostState)
    (c : CallbackCall) : HostState × List FlushStep :=
  (emittedEvents h now c).foldl
    (fun acc evt =>
      let r := deliverEvent sink acc.1 evt
      (r.state, acc.2 ++ r.actions))
    (st, [])

/-- Standard base64 alphabet (Go `encoding/base64.StdEncoding`, used by
`encoding/json` for byte slices). -/
def base64Chars : List Char :=
  "ABCDEFGHIJKLMNOPQRSTUVWXYZabcdefghijklmnopqrstuvwxyz0123456789+/".toList

/-- One base64 alphabet character. -/
def base64Digit (n : Nat) : Char := base64Chars.getD n 'A'

/-- Standard base64 with padding over a byte string. -/
def base64Encode : List Nat → List Char
  | [] => []
  | [a] =>
      let a := a % 256
      [base64Digit (a / 4), base64Digit (a % 4 * 16), '=', '=']
  | [a, b] =>
      let a := a % 256
      let b := b % 256
      [base64Digit (a / 4), base64Digit (a % 4 * 16 + b / 16),
       base64Digit (b % 16 * 4), '=']
  | a :: b :: c :: rest =>
      let a := a % 256
      let b := b % 256
      let c := c % 256
      base64Digit (a / 4) :: base64Digit (a % 4 * 16 + b / 16) ::
        base64Digit (b % 16 * 4 + c / 64) :: base64Digit (c % 64) ::
        base64Encode rest

/-- JSON string literal: quote the content, escaping backslash and quote
(control-character and HTML escaping of Go `encoding/json` elided — no
claim depends on the escaped form). -/
def jsonQuote (s : String) : String :=
  String.mk ('\x22' ::
    s.toList.foldr
      (fun c acc =>
        if c = '\x22' ∨ c = '\\' then '\\' :: c :: acc else c :: acc)
      ['\x22'])

/-- `json.Marshal` of one payload value: byte slices render as base64
strings, an unserializable value (channel, function) is a marshal error. -/
def serializeVal : Val → Option String
  | .vStr s => some (jsonQuote s)
  | .vBool b => some (if b then "true" else "false")
  | .vNat n => some (toString n)
  | .vBytes bs => some (jsonQuote (String.mk (base64Encode bs)))
  | .vUnser => none

/-- `json.Marshal` of the fields of a map payload: fails iff any value
fails. -/
def serializeFields : List (String × Val) → Option (List String)
  | [] => some []
  | (k, v) :: rest =>
      match serializeVal v, serializeFields rest with
      | some sv, some srest => some ((jsonQuote k ++ ":" ++ sv) :: srest)
      | _, _ => none

/-- Comma-join a list of rendered fields into a JSON object body. -/
def joinFields (fields : List String) : String :=
  String.intercalate "," fields

/-- JSON rendering of an `RPCMeta` payload: all of its fields are plain
strings, booleans and lists, so it always serializes. -/
def serializeRPCMeta (m : RPCMeta) : String :=
  "\x7b" ++ jsonQuote "PeerID" ++ ":" ++ jsonQuote m.peerID ++ "\x7d"

/-- `json.Marshal` of a payload: `none` exactly when some map value is
unrepresentable. -/
def serializePayload : Payload → Option String
  | .pmap fields =>
      match serializeFields fields with
      | some rendered => some ("\x7b" ++ joinFields rendered ++ "\x7d")
      | none => none
  | .prpc m => some (serializeRPCMeta m)

/-- Wire name of an event type (the string values of the `EventType...`
constants live outside the provided source file; names follow the spec's
taxonomy). -/
def eventTypeName : EventType → String
  | .addPeer => "AddPeer"
  | .removePeer => "RemovePeer"
  | .join => "Join"
  | .leave => "Leave"
  | .graft => "Graft"
  | .prune => "Prune"
  | .validateMessage => "ValidateMessage"
  | .deliverMessage => "DeliverMessage"
  | .rejectMessage => "RejectMessage"
  | .duplicateMessage => "DuplicateMessage"
  | .throttlePeer => "ThrottlePeer"
  | .undeliverableMessage => "UndeliverableMessage"
  | .publishMessage => "PublishMessage"
  | .recvRPC => "RecvRPC"
  | .sendRPC => "SendRPC"
  | .dropRPC => "DropRPC"

/-- `json.Marshal(t)` for the whole envelope: the payload field is emitted
under the wire name `Data` (the `json:"Data"` tag); fails exactly when the
payload fails. -/
def serializeEvent (t : TraceEvent) : Option String :=
  match serializePayload t.Payload with
  | none => none
  | some pay =>
      some ("\x7b" ++ jsonQuote "Type" ++ ":" ++ jsonQuote (eventTypeName t.Type)
        ++ "," ++ jsonQuote "PeerID" ++ ":" ++ jsonQuote t.PeerID
        ++ "," ++ jsonQuote "Timestamp" ++ ":" ++ toString t.Timestamp
        ++ "," ++ jsonQuote "Data" ++ ":" ++ pay ++ "\x7d")

/-- `TraceEvent.Data` (lines 38-45): marshal the envelope; on failure log
a warning and return nil. Result: the marshalled bytes (`none` = nil) and
the number of warnings logged. The method has no error return: a marshal
failure is swallowed here and never propagates. -/
def TraceEvent.DataBytes (t : TraceEvent) : Option String × Nat :=
  match serializeEvent t with
  | none => (none, 1)
  | some s => (some s, 0)

/-- Does a payload contain a value `json.Marshal` cannot represent? -/
def Payload.hasUnserializable : Payload → Bool
  | .pmap fields => fields.any (fun kv => kv.2 = Val.vUnser)
  | .prpc _ => false

/-- A payload value that is a string consisting only of lowercase hex
digits. -/
def Val.isLowerHexString : Val → Bool
  | .vStr s => s.toList.all (fun c => hexDigits.contains c)
  | _ => false

/-- Nibble values render to characters of the lowercase hex alphabet. -/
lemma hexDigit_mem (n : Nat) (hn : n < 16) :
    hexDigits.contains (hexDigit n) = true := by
  interval_cases n <;> rfl

/-- Every character `hex.EncodeToString` produces is a lowercase hex
digit. -/
lemma hexEncodeChars_all_hex (bs : List Nat) :
    (hexEncodeChars bs).all (fun c => hexDigits.contains c) = true := by
  induction bs with
  | nil => rfl
  | cons b rest ih =>
      have h1 : hexDigits.contains (hexDigit (b % 256 / 16)) = true :=
        hexDigit_mem _ (Nat.div_lt_of_lt_mul (by omega))
      have h2 : hexDigits.contains (hexDigit (b % 256 % 16)) = true :=
        hexDigit_mem _ (Nat.mod_lt _ (by omega))
      simp only [hexEncodeChars, List.foldr_cons, List.all_cons, h1, h2,
        Bool.true_and]
      exact ih

/-- Marshalling one value fails exactly on an unserializable value. -/
lemma serializeVal_none_iff (v : Val) :
    serializeVal v = none ↔ v = Val.vUnser := by
  cases v <;> simp [serializeVal]

/-- Marshalling a field list fails exactly when some value is
unserializable. -/
lemma serializeFields_none_iff (l : List (String × Val)) :
    serializeFields l = none ↔ l.any (fun kv => kv.2 = Val.vUnser) = true := by
  induction l with
  | nil => simp [serializeFields]
  | cons kv rest ih =>
      obtain ⟨k, v⟩ := kv
      cases hv : serializeVal v with
      | none =>
          have hveq : v = Val.vUnser := (serializeVal_none_iff v).mp hv
          subst hveq
          simp [serializeFields, serializeVal]
      | some sv =>
          have hvne : ¬ v = Val.vUnser := fun hh => by
            simp [hh, serializeVal] at hv
          cases hr : serializeFields rest with
          | none =>
              simp only [serializeFields, hv, hr]
              simp [hvne, ih.mp hr]
          | some srest =>
              have hrest : ¬ (rest.any fun kv => decide (kv.2 = Val.vUnser)) = true := by
                rw [← ih]
                simp [hr]
              simp only [serializeFields, hv, hr]
              simp [hvne, hrest]

/-- C1: for every invocation of `FlushTraceWithTimestamp` (and hence
`FlushTrace`), with any event type, timestamp and payload, and any sink
behavior (success, explicit failure, or no response), the operation raises
no error to its caller, blocks at most the configured 10-second timeout,
and the scoped context is released exactly once, as the last step, on
every exit path. -/
theorem flush_never_raises_bounded_ctx_released
    (h : Host) (sink : SinkBehavior) (st : HostState)
    (evtType : EventType) (ts : Int) (payload : Payload) :
    (FlushTraceWithTimestamp h sink st evtType ts payload).2.raisedErr = none ∧
    (FlushTraceWithTimestamp h sink st evtType ts payload).2.blockedNs ≤ timeoutNs ∧
    (FlushTraceWithTimestamp h sink st evtType ts payload).2.actions.count
      FlushStep.ctxRelease = 1 ∧
    (FlushTraceWithTimestamp h sink st evtType ts payload).2.actions.getLast?
      = some FlushStep.ctxRelease := by
  unfold FlushTraceWithTimestamp deliverEvent putEventOutcome
  cases sink with
  | respond afterNs result =>
      by_cases ht : afterNs < timeoutNs
      · cases result with
        | none => simp [ht]; omega
        | some e => simp [ht]; omega
      · simp [ht]
  | noResponse => simp

/-- C2: per delivery attempt, the submitted-traces counter increments by
exactly one iff the publish succeeds; on a publish error (explicit failure
or timeout) a warning is logged, the counter is unchanged, and the
operation returns without raising. -/
theorem submitted_counter_iff_publish_success
    (h : Host) (sink : SinkBehavior) (st : HostState)
    (evtType : EventType) (ts : Int) (payload : Payload) :
    (FlushTraceWithTimestamp h sink st evtType ts payload).2.state.submittedTraces
      = (if (putEventOutcome sink).2 = none
         then st.submittedTraces + 1 else st.submittedTraces) ∧
    (FlushTraceWithTimestamp h sink st evtType ts payload).2.state.warnings
      = (if (putEventOutcome sink).2 = none then st.warnings else st.warnings + 1) ∧
    ((FlushStep.logWarn ∈
        (FlushTraceWithTimestamp h sink st evtType ts payload).2.actions)
      ↔ (putEventOutcome sink).2 ≠ none) ∧
    (FlushTraceWithTimestamp h sink st evtType ts payload).2.raisedErr = none := by
  unfold FlushTraceWithTimestamp deliverEvent
  cases hout : (putEventOutcome sink).2 with
  | none => simp [hout]
  | some e => simp [hout]

/-- C7 counterexample: with the UUID generator failing, two envelopes that
differ only in their `PeerID` field get different partition keys, so the
partition key is not independent of the envelope's content. -/
theorem partition_key_depends_on_peerid :
    (mkTraceEvent ⟨"peer-a"⟩ EventType.join 0 (Payload.pmap [])).PartitionKey none
      ≠ (mkTraceEvent ⟨"peer-b"⟩ EventType.join 0 (Payload.pmap [])).PartitionKey none := by
  decide

/-- C7 amended: when UUID generation succeeds, the partition key is the
fresh UUID, identical across all envelopes and independent of envelope
content; when UUID generation fails, the key falls back to the envelope's
own `PeerID` string. -/
theorem partition_key_uuid_or_peerid_fallback
    (u : String) (t t' : TraceEvent) :
    t.PartitionKey (some u) = u ∧
    t.PartitionKey (some u) = t'.PartitionKey (some u) ∧
    t.PartitionKey none = t.PeerID := by
  exact ⟨rfl, rfl, rfl⟩

/-- C10: the callback-surface `RecvRPC`, `SendRPC` and `DropRPC` entry
points are no-ops for every input: no envelope is built, no delivery is
attempted, and the mutable state is unchanged. -/
theorem rpc_callback_surface_noop
    (h : Host) (now : Int) (sink : SinkBehavior) (st : HostState)
    (rpc : RPC) (p : PeerID) :
    emittedEvents h now (.recvRPC rpc) = [] ∧
    runCallback h now sink st (.recvRPC rpc) = (st, []) ∧
    emittedEvents h now (.sendRPC rpc p) = [] ∧
    runCallback h now sink st (.sendRPC rpc p) = (st, []) ∧
    emittedEvents h now (.dropRPC rpc p) = [] ∧
    runCallback h now sink st (.dropRPC rpc p) = (st, []) := by
  exact ⟨rfl, rfl, rfl, rfl, rfl, rfl⟩

/-- C3: every envelope emitted through any entry point — all lifecycle
callbacks and all wire-trace notification kinds — carries the local node's
own identity `h.ID()` as its `PeerID` (observer) field, never a remote
peer's. -/
theorem observer_id_always_local
    (h : Host) (now : Int) (c : CallbackCall) :
    ∀ e ∈ emittedEvents h now c, e.PeerID = h.ID := by
  intro e he
  cases c with
  | trace evt =>
      obtain ⟨ty, ts, pub, r, s, d⟩ := evt
      cases ty <;> simp_all [emittedEvents, mkTraceEvent]
  | _ => simp_all [emittedEvents, mkTraceEvent]

/-- C3 witness: a concrete `Join` invocation on a concrete host. -/
theorem observer_id_always_local_witness :
    (mkTraceEvent ⟨"local-node"⟩ EventType.join 0
      (Payload.pmap [("Topic", Val.vStr "topic-A")])).PeerID
      = (⟨"local-node"⟩ : Host).ID :=
  observer_id_always_local ⟨"local-node"⟩ 0 (.join "topic-A") _
    (by simp [emittedEvents])

/-- C4: every lifecycle callback yields exactly one envelope whose `Type`
matches the invoking method and whose payload keys are exactly the
documented names; `DeliverMessage`/`RejectMessage`/`DuplicateMessage`
carry the sequence number as `Seq`, `ValidateMessage` as `SeqNo`, and
`UndeliverableMessage` carries only `PeerID`, `Topic`, `MsgID`, `Local`. -/
theorem lifecycle_envelope_types_and_keys
    (h : Host) (now : Int) (p : PeerID) (proto : ProtocolID)
    (topic : String) (msg : PubsubMessage) (reason : String) :
    (emittedEvents h now (.addPeer p proto)).map
      (fun e => (e.Type, e.Payload.keys)) = [(.addPeer, ["PeerID", "Protocol"])] ∧
    (emittedEvents h now (.removePeer p)).map
      (fun e => (e.Type, e.Payload.keys)) = [(.removePeer, ["PeerID"])] ∧
    (emittedEvents h now (.join topic)).map
      (fun e => (e.Type, e.Payload.keys)) = [(.join, ["Topic"])] ∧
    (emittedEvents h now (.leave topic)).map
      (fun e => (e.Type, e.Payload.keys)) = [(.leave, ["Topic"])] ∧
    (emittedEvents h now (.graft p topic)).map
      (fun e => (e.Type, e.Payload.keys)) = [(.graft, ["PeerID", "Topic"])] ∧
    (emittedEvents h now (.prune p topic)).map
      (fun e => (e.Type, e.Payload.keys)) = [(.prune, ["PeerID", "Topic"])] ∧
    (emittedEvents h now (.validateMessage msg)).map
      (fun e => (e.Type, e.Payload.keys))
      = [(.validateMessage, ["PeerID", "Topic", "MsgID", "Local", "MsgSize", "SeqNo"])] ∧
    (emittedEvents h now (.deliverMessage msg)).map
      (fun e => (e.Type, e.Payload.keys))
      = [(.deliverMessage, ["PeerID", "Topic", "MsgID", "Local", "MsgSize", "Seq"])] ∧
    (emittedEvents h now (.rejectMessage msg reason)).map
      (fun e => (e.Type, e.Payload.keys))
      = [(.rejectMessage, ["PeerID", "Topic", "MsgID", "Reason", "Local", "MsgSize", "Seq"])] ∧
    (emittedEvents h now (.duplicateMessage msg)).map
      (fun e => (e.Type, e.Payload.keys))
      = [(.duplicateMessage, ["PeerID", "Topic", "MsgID", "Local", "MsgSize", "Seq"])] ∧
    (emittedEvents h now (.throttlePeer p)).map
      (fun e => (e.Type, e.Payload.keys)) = [(.throttlePeer, ["PeerID"])] ∧
    (emittedEvents h now (.undeliverableMessage msg)).map
      (fun e => (e.Type, e.Payload.keys))
      = [(.undeliverableMessage, ["PeerID", "Topic", "MsgID", "Local"])] := by
  exact ⟨rfl, rfl, rfl, rfl, rfl, rfl, rfl, rfl, rfl, rfl, rfl, rfl⟩

/-- C6: every lifecycle envelope carries the capture-time timestamp `now`,
while every envelope produced from a wire-trace notification carries the
notification's own timestamp verbatim, for every notification. -/
theorem lifecycle_now_wire_verbatim_timestamps
    (h : Host) (now : Int) (p : PeerID) (proto : ProtocolID)
    (topic : String) (msg : PubsubMessage) (reason : String)
    (pev : PBTraceEvent) :
    (emittedEvents h now (.addPeer p proto)).map (·.Timestamp) = [now] ∧
    (emittedEvents h now (.removePeer p)).map (·.Timestamp) = [now] ∧
    (emittedEvents h now (.join topic)).map (·.Timestamp) = [now] ∧
    (emittedEvents h now (.leave topic)).map (·.Timestamp) = [now] ∧
    (emittedEvents h now (.graft p topic)).map (·.Timestamp) = [now] ∧
    (emittedEvents h now (.prune p topic)).map (·.Timestamp) = [now] ∧
    (emittedEvents h now (.validateMessage msg)).map (·.Timestamp) = [now] ∧
    (emittedEvents h now (.deliverMessage msg)).map (·.Timestamp) = [now] ∧
    (emittedEvents h now (.rejectMessage msg reason)).map (·.Timestamp) = [now] ∧
    (emittedEvents h now (.duplicateMessage msg)).map (·.Timestamp) = [now] ∧
    (emittedEvents h now (.throttlePeer p)).map (·.Timestamp) = [now] ∧
    (emittedEvents h now (.undeliverableMessage msg)).map (·.Timestamp) = [now] ∧
    (emittedEvents h now (.trace pev)).map (·.Timestamp)
      = List.replicate (emittedEvents h now (.trace pev)).length pev.timestamp := by
  refine ⟨rfl, rfl, rfl, rfl, rfl, rfl, rfl, rfl, rfl, rfl, rfl, rfl, ?_⟩
  obtain ⟨ty, ts, pub, r, s, d⟩ := pev
  cases ty <;> rfl

/-- C8: a wire-trace notification of any kind other than `PublishMessage`,
`RecvRPC`, `SendRPC`, `DropRPC` produces no envelope, performs no delivery
attempt, leaves the state unchanged, and raises no error. -/
theorem unknown_wire_kinds_silently_ignored
    (h : Host) (now : Int) (sink : SinkBehavior) (st : HostState)
    (pev : PBTraceEvent)
    (hk : pev.type ∉ ([.publishMessage, .recvRPC, .sendRPC, .dropRPC] : List PBType)) :
    emittedEvents h now (.trace pev) = [] ∧
    runCallback h now sink st (.trace pev) = (st, []) := by
  obtain ⟨ty, ts, pub, r, s, d⟩ := pev
  cases ty <;> simp_all [emittedEvents, runCallback]

/-- C8 witness: a concrete `JOIN` wire notification is ignored. -/
theorem unknown_wire_kinds_silently_ignored_witness :
    emittedEvents ⟨"local-node"⟩ 0
      (.trace ⟨.join, 5, ⟨[1], "t"⟩, ⟨"r", ⟨[], none, []⟩⟩,
        ⟨"s", ⟨[], none, []⟩⟩, ⟨"d", ⟨[], none, []⟩⟩⟩) = [] ∧
    runCallback ⟨"local-node"⟩ 0 (.respond 0 none) ⟨0, 0⟩
      (.trace ⟨.join, 5, ⟨[1], "t"⟩, ⟨"r", ⟨[], none, []⟩⟩,
        ⟨"s", ⟨[], none, []⟩⟩, ⟨"d", ⟨[], none, []⟩⟩⟩) = (⟨0, 0⟩, []) :=
  unknown_wire_kinds_silently_ignored ⟨"local-node"⟩ 0 (.respond 0 none) ⟨0, 0⟩
    ⟨.join, 5, ⟨[1], "t"⟩, ⟨"r", ⟨[], none, []⟩⟩,
      ⟨"s", ⟨[], none, []⟩⟩, ⟨"d", ⟨[], none, []⟩⟩⟩ (by decide)

/-- C5 counterexample: a concrete wire `PublishMessage` notification with
message id bytes `0xAB12` yields a payload whose `MsgID` entry is the raw
byte slice, not a lowercase-hex string: the claim fails at this input. -/
theorem publish_msgid_not_rendered_hex :
    (emittedEvents ⟨"local-node"⟩ 0
      (.trace ⟨.publishMessage, 5, ⟨[171, 18], "t"⟩, ⟨"r", ⟨[], none, []⟩⟩,
        ⟨"s", ⟨[], none, []⟩⟩, ⟨"d", ⟨[], none, []⟩⟩⟩)).map
      (fun e => e.Payload.lookup "MsgID")
      = [some (Val.vBytes [171, 18])] ∧
    Val.isLowerHexString (Val.vBytes [171, 18]) = false ∧
    Val.vBytes [171, 18] ≠ Val.vStr (hexEncodeToString [171, 18]) := by
  exact ⟨by decide, rfl, by decide⟩

/-- C5 amended: lifecycle callbacks render message ids and sequence
numbers as lowercase hexadecimal strings for arbitrary byte strings
(every produced character is a lowercase hex digit), but the wire
`PublishMessage` event's `MsgID` is the notification's raw message-id
byte slice passed verbatim, not hex-encoded. -/
theorem msg_identifiers_hex_amended
    (h : Host) (now : Int) (msg : PubsubMessage) (reason : String)
    (bs : List Nat) (ts : Int) (pub : PBPublish)
    (r : PBRecvRPC) (s : PBSendRPC) (d : PBSendRPC) :
    (hexEncodeToString bs).toList.all (fun c => hexDigits.contains c) = true ∧
    (emittedEvents h now (.validateMessage msg)).map
      (fun e => (e.Payload.lookup "MsgID", e.Payload.lookup "SeqNo"))
      = [(some (.vStr (hexEncodeToString msg.id)),
          some (.vStr (hexEncodeToString msg.seqno)))] ∧
    (emittedEvents h now (.deliverMessage msg)).map
      (fun e => (e.Payload.lookup "MsgID", e.Payload.lookup "Seq"))
      = [(some (.vStr (hexEncodeToString msg.id)),
          some (.vStr (hexEncodeToString msg.seqno)))] ∧
    (emittedEvents h now (.rejectMessage msg reason)).map
      (fun e => (e.Payload.lookup "MsgID", e.Payload.lookup "Seq"))
      = [(some (.vStr (hexEncodeToString msg.id)),
          some (.vStr (hexEncodeToString msg.seqno)))] ∧
    (emittedEvents h now (.duplicateMessage msg)).map
      (fun e => (e.Payload.lookup "MsgID", e.Payload.lookup "Seq"))
      = [(some (.vStr (hexEncodeToString msg.id)),
          some (.vStr (hexEncodeToString msg.seqno)))] ∧
    (emittedEvents h now (.undeliverableMessage msg)).map
      (fun e => e.Payload.lookup "MsgID")
      = [some (.vStr (hexEncodeToString msg.id))] ∧
    (emittedEvents h now (.trace ⟨.publishMessage, ts, pub, r, s, d⟩)).map
      (fun e => e.Payload.lookup "MsgID")
      = [some (.vBytes pub.messageID)] := by
  refine ⟨hexEncodeChars_all_hex bs, ?_, ?_, ?_, ?_, ?_, ?_⟩ <;> rfl

/-- Marshalling a payload fails exactly when it holds an unserializable
value. -/
lemma serializePayload_none_iff (p : Payload) :
    serializePayload p = none ↔ p.hasUnserializable = true := by
  cases p with
  | pmap fields =>
      cases hf : serializeFields fields with
      | none =>
          simp [serializePayload, hf, Payload.hasUnserializable,
            ← (serializeFields_none_iff fields).mp hf]
      | some rendered =>
          have hany : ¬ (fields.any fun kv => decide (kv.2 = Val.vUnser)) = true := by
            rw [← serializeFields_none_iff]
            simp [hf]
          simp [serializePayload, hf, Payload.hasUnserializable, hany]
  | prpc m => simp [serializePayload, Payload.hasUnserializable]

/-- Marshalling the envelope fails exactly when the payload does. -/
lemma serializeEvent_none_iff (t : TraceEvent) :
    serializeEvent t = none ↔ t.Payload.hasUnserializable = true := by
  unfold serializeEvent
  cases hp : serializePayload t.Payload with
  | none => simp [← (serializePayload_none_iff t.Payload).mp hp]
  | some pay =>
      have : ¬ t.Payload.hasUnserializable = true := by
        rw [← serializePayload_none_iff]
        simp [hp]
      simp [this]

/-- C9: encoding the envelope to the wire format fails exactly on an
unrepresentable payload value; on failure exactly one warning is logged
and nil data is returned (the record is dropped), with no retry; and no
error ever propagates back into the calling protocol path. -/
theorem encode_failure_warn_and_drop
    (t : TraceEvent) (sink : SinkBehavior) (st : HostState) :
    (t.DataBytes.1 = none ↔ t.Payload.hasUnserializable = true) ∧
    t.DataBytes.2 = (if t.Payload.hasUnserializable then 1 else 0) ∧
    (deliverEvent sink st t).raisedErr = none := by
  refine ⟨?_, ?_, ?_⟩
  · unfold TraceEvent.DataBytes
    cases hs : serializeEvent t with
    | none => simp [← (serializeEvent_none_iff t).mp hs]
    | some s =>
        have : ¬ t.Payload.hasUnserializable = true := by
          rw [← serializeEvent_none_iff]
          simp [hs]
        simp [this]
  · unfold TraceEvent.DataBytes
    cases hs : serializeEvent t with
    | none => simp [(serializeEvent_none_iff t).mp hs]
    | some s =>
        have : ¬ t.Payload.hasUnserializable = true := by
          rw [← serializeEvent_none_iff]
          simp [hs]
        simp [this]
  · unfold deliverEvent
    cases hpo : (putEventOutcome sink).2 <;> simp [hpo]
